import Mathlib

/-!
# Verification of the whisper.cpp HTTP wrapper (`app.py`)

A shallow embedding of `src/app.py`: a FastAPI application that exposes a
health route and a transcribe route.  The transcribe route stores the
uploaded audio in a temporary file, resolves a whisper model path
(downloading the weights file once if absent), runs an external
`whisper-cli`/`whisper` binary with binary-name fallback, and parses the
binary's output files into a JSON response.

Pure Python fragments become Lean functions; the file system and the
subprocess layer become explicit parameters (`String → Bool` existence
tests, a `String → RunResult` behaviour map) and event lists, so every
definition is executable and every claim can be evaluated on concrete
inputs.
-/

namespace WhisperApp

/-! ## Python string primitives

Faithful models of the `str` operations the application uses:
`str.lower` (ASCII case folding, which is all the code needs for the
literal `"deprecated"`), `str.strip()` with Python's whitespace set,
the slice `s[-n:]`, and the `in` substring test. -/

/-- Python `str.lower()` restricted to ASCII (the only case folding the
application relies on: it searches for the ASCII word `"deprecated"`). -/
def pyLower (s : String) : String :=
  String.mk (s.data.map Char.toLower)

/-- The code points CPython's `str.isspace()` accepts — exactly the
characters a no-argument `str.strip()` removes: the ASCII whitespace
range `\x09`–`\x0d` (tab, newline, vertical tab, form feed, carriage
return), the information separators `\x1c`–`\x1f`, the space `\x20`,
then `\x85` (next line), `\xa0` (no-break space), U+1680 (ogham space
mark), the typographic spaces U+2000–U+200A, the line and paragraph
separators U+2028 and U+2029, U+202F (narrow no-break space),
U+205F (medium mathematical space), and U+3000 (ideographic
space). -/
def pyWs (c : Char) : Bool :=
  (0x09 ≤ c.toNat && c.toNat ≤ 0x0d) ||
  (0x1c ≤ c.toNat && c.toNat ≤ 0x20) ||
  c.toNat == 0x85 || c.toNat == 0xa0 || c.toNat == 0x1680 ||
  (0x2000 ≤ c.toNat && c.toNat ≤ 0x200a) ||
  c.toNat == 0x2028 || c.toNat == 0x2029 || c.toNat == 0x202f ||
  c.toNat == 0x205f || c.toNat == 0x3000

/-- Python `str.strip()`: remove leading and trailing whitespace. -/
def pyStrip (s : String) : String :=
  String.mk (((s.data.dropWhile pyWs).reverse.dropWhile pyWs).reverse)

/-- Python slice `s[-n:]`: the last `n` characters (the whole string when
it is shorter than `n`). -/
def pyTail (n : Nat) (s : String) : String :=
  String.mk (s.data.drop (s.data.length - n))

/-- Python `needle in hay` on strings: `needle` occurs as a contiguous
substring of `hay`. -/
def containsSub (needle : List Char) : List Char → Bool
  | [] => needle.isEmpty
  | a :: rest => needle.isPrefixOf (a :: rest) || containsSub needle rest

/-- Index of the last occurrence of `c` (Python `str.rfind`, as `Option`). -/
def lastIndexOf (c : Char) : List Char → Option Nat
  | [] => none
  | a :: rest =>
    match lastIndexOf c rest with
    | some i => some (i + 1)
    | none => if a == c then some 0 else none

/-- The extension component of `os.path.splitext` on POSIX (`sep = "/"`,
no `altsep`): everything from the last dot, provided that dot lies in the
basename and is preceded there by at least one non-dot character (leading
dots of the basename never start an extension). -/
def splitextExt (p : String) : String :=
  let cs := p.data
  match lastIndexOf '.' cs with
  | none => ""
  | some d =>
    let s := match lastIndexOf '/' cs with
      | none => 0
      | some i => i + 1
    let dotAfterSep : Bool := match lastIndexOf '/' cs with
      | none => true
      | some i => decide (i < d)
    if dotAfterSep && ((cs.drop s).take (d - s)).any (fun a => a != '.') then
      String.mk (cs.drop d)
    else ""

/-- `os.path.join` on POSIX for two components. -/
def pathJoin (a b : String) : String :=
  if b.startsWith "/" then b
  else if a = "" || a.endsWith "/" then a ++ b
  else a ++ "/" ++ b

/-! ## Configuration and model resolution (`app.py` lines 8–52) -/

/-- The environment-derived configuration: `MODELS_DIR`, `MODEL_ARG`
(`WHISPER_MODEL`), `WHISPER_THREADS`, `WHISPER_BEAM_SIZE`, `WHISPER_BIN`. -/
structure Config where
  modelsDir : String
  modelArg : String
  threads : Int
  beamSize : Int
  whisperBin : String
deriving DecidableEq

/-- The alias table `GGML_MAP`: short model names to ggml weights-file
names. -/
def GGML_MAP : List (String × String) :=
  [("tiny", "ggml-tiny.bin"),
   ("tiny.en", "ggml-tiny.en.bin"),
   ("base", "ggml-base.bin"),
   ("base.en", "ggml-base.en.bin"),
   ("small", "ggml-small.bin"),
   ("small.en", "ggml-small.en.bin"),
   ("medium", "ggml-medium.bin"),
   ("medium.en", "ggml-medium.en.bin"),
   ("large-v1", "ggml-large-v1.bin"),
   ("large-v2", "ggml-large-v2.bin"),
   ("large-v3", "ggml-large-v3.bin")]

/-- The download URL built for a weights-file name. -/
def hfUrl (fname : String) : String :=
  "https://huggingface.co/ggerganov/whisper.cpp/resolve/main/" ++ fname

/-- The exceptions `resolve_model_path` can raise. -/
inductive ResolveErr where
  | fileNotFound (msg : String)
  | valueError (msg : String)
deriving DecidableEq

/-- File-system side effects of `resolve_model_path`. -/
inductive FsEvent where
  | makedirs (dir : String)
  | download (url : String) (path : String)
deriving DecidableEq

/-- `resolve_model_path` (lines 32–50).  `fsExists` is `os.path.exists`;
the returned list records the file-system effects performed (directory
creation and the one-shot model download), in order.  Python's
`if not fname:` is falsy for both a missing key and an empty string, and
`os.path.sep in MODEL_ARG` is a substring test for `"/"`. -/
def resolve_model_path (modelsDir modelArg : String) (fsExists : String → Bool) :
    Except ResolveErr String × List FsEvent :=
  if containsSub "/".data modelArg.data then
    if fsExists modelArg = false then
      (Except.error (ResolveErr.fileNotFound ("Model not found at " ++ modelArg)), [])
    else
      (Except.ok modelArg, [])
  else
    match List.lookup modelArg GGML_MAP with
    | none =>
      (Except.error (ResolveErr.valueError ("Unknown model alias: " ++ modelArg)), [])
    | some fname =>
      if fname = "" then
        (Except.error (ResolveErr.valueError ("Unknown model alias: " ++ modelArg)), [])
      else
        let path := pathJoin modelsDir fname
        if fsExists path = false then
          (Except.ok path, [FsEvent.makedirs modelsDir, FsEvent.download (hfUrl fname) path])
        else
          (Except.ok path, [])

/-! ## Subprocess model and the binary-fallback loop (lines 65–108) -/

/-- Outcome of one `_run` call: either `subprocess.run` raised
`FileNotFoundError`, or the binary ran and produced a `CompletedProcess`
with a return code, stdout and stderr.  (`_run` returns exactly one of
`proc`/`err` non-`None`, which this type captures.) -/
inductive RunResult where
  | notFound
  | ran (returncode : Int) (stdout : String) (stderr : String)
deriving DecidableEq

/-- The command line `_run` builds (lines 66–73).  `if language:` is
Python truthiness on `str | None`: false for `None` and for `""`. -/
def buildCmd (binName modelPath tmpPath outBase : String) (language : Option String)
    (task : String) (wordTs : Bool) (threads beamSize : Int) : List String :=
  [binName, "-m", modelPath, "-f", tmpPath,
   "-oj", "-osrt", "-of", outBase,
   "-t", toString threads, "-bs", toString beamSize]
  ++ (match language with
      | none => []
      | some l => if l = "" then [] else ["-l", l])
  ++ (if task = "translate" then ["-tr"] else [])
  ++ (if wordTs then ["-owts"] else [])

/-- The deprecation test of line 105:
`"deprecated" in (proc.stdout.lower() + proc.stderr.lower())`. -/
def hasDeprecated (stdout stderr : String) : Bool :=
  containsSub "deprecated".data (pyLower stdout ++ pyLower stderr).data

/-- The `continue` condition of the fallback loop (lines 102–106): try the
next candidate when the binary was not found, or when it ran, exited
non-zero and its combined output mentions a deprecation. -/
def shouldContinue : RunResult → Bool
  | RunResult.notFound => true
  | RunResult.ran rc stdout stderr => (rc != 0) && hasDeprecated stdout stderr

/-- The fallback loop over a non-empty candidate list (lines 97–108),
returning the `last` pair `(candidate, result)` left behind when the loop
breaks or is exhausted.  `behavior` maps a binary name to what running it
does. -/
def loopLastNE (behavior : String → RunResult) (c : String) :
    List String → String × RunResult
  | [] => (c, behavior c)
  | c2 :: rest =>
    if shouldContinue (behavior c) then loopLastNE behavior c2 rest
    else (c, behavior c)

/-- The concrete candidate list of line 97. -/
def candidatesOf (whisperBin : String) : List String :=
  [whisperBin, "whisper-cli", "whisper"]

/-- The `(candidate, result)` the loop ends with for the application's
candidate list. -/
def lastAttempt (behavior : String → RunResult) (whisperBin : String) :
    String × RunResult :=
  loopLastNE behavior whisperBin ["whisper-cli", "whisper"]

/-! ## The transcribe endpoint (lines 81–169) -/

/-- The form data of a transcribe request (including the upload's
filename, which may be absent). -/
structure TranscribeRequest where
  filename : Option String
  language : Option String
  task : String
  wordTs : Bool
deriving DecidableEq

/-- The temp-file suffix of line 88:
`os.path.splitext(file.filename or "")[1] or ".wav"`. -/
def tmpSuffix (filename : Option String) : String :=
  let ext := splitextExt (filename.getD "")
  if ext = "" then ".wav" else ext

/-- One entry of the whisper JSON's `"segments"` array, with the fields
the endpoint reads (`start`, `end`, `text`).  `α` is the type of raw JSON
values that the endpoint passes through unchanged. -/
structure SegIn (α : Type) where
  start : Option α
  end_ : Option α
  text : Option String
deriving DecidableEq

/-- The parsed whisper JSON output file, with the fields the endpoint
reads. -/
structure WhisperJson (α : Type) where
  language : Option α
  duration : Option α
  text : Option String
  segments : Option (List (SegIn α))
deriving DecidableEq

/-- Everything outside the process that a transcribe request observes:
how each binary name behaves, the temp paths, and the output files the
binary left behind (`none` = the file does not exist). -/
structure TranscribeEnv (α : Type) where
  behavior : String → RunResult
  tmpPath : String
  outBase : String
  jsonOut : Option (WhisperJson α)
  srtOut : Option String
  wtsOut : Option α

/-- One segment of the success response body. -/
structure SegOut (α : Type) where
  start : Option α
  end_ : Option α
  text : String
deriving DecidableEq

/-- The success response body (lines 158–169). -/
structure SuccessBody (α : Type) where
  language : Option α
  duration : Option α
  text : String
  segments : List (SegOut α)
  srt : Option String
  word_timestamps : Option α
  used_bin : String
deriving DecidableEq

/-- The possible `JSONResponse`s of the endpoint, one constructor per
`return` site, carrying the fields of the corresponding content dict.
`errUnknownState` mirrors the `proc is None` branch of lines 120–121. -/
inductive Resp (α : Type) where
  | errNotFound (tried : List String)
  | errUnknownState
  | errWhisperFailed (exit_code : Int) (stderr_tail stdout_tail cmd : String)
      (tried_bins : List String) (used_bin : String)
  | errMissingJson (stdout_tail stderr_tail : String)
  | success (body : SuccessBody α)
deriving DecidableEq

/-- HTTP status code of a response: 500 for every error return, 200 for
the success return. -/
def statusCode {α : Type} : Resp α → Nat
  | Resp.errNotFound _ => 500
  | Resp.errUnknownState => 500
  | Resp.errWhisperFailed _ _ _ _ _ _ => 500
  | Resp.errMissingJson _ _ => 500
  | Resp.success _ => 200

/-- Whether the response body has an `"error"` field (every error content
dict does; the success body does not). -/
def hasErrorField {α : Type} : Resp α → Bool
  | Resp.success _ => false
  | _ => true

/-- Whether the response is the success (transcription) response. -/
def isSuccess {α : Type} : Resp α → Bool
  | Resp.success _ => true
  | _ => false

/-- The `exit_code` field, present only on the non-zero-exit error. -/
def exitCodeOf {α : Type} : Resp α → Option Int
  | Resp.errWhisperFailed rc _ _ _ _ _ => some rc
  | _ => none

/-- The code after the fallback loop (lines 114–169): turn the loop's
final `(candidate, result)` pair into the HTTP response. -/
def respond {α : Type} (cfg : Config) (modelPath : String) (req : TranscribeRequest)
    (env : TranscribeEnv α) (candidate : String) (r : RunResult) : Resp α :=
  match r with
  | RunResult.notFound => Resp.errNotFound (candidatesOf cfg.whisperBin)
  | RunResult.ran rc stdout stderr =>
    if rc != 0 then
      Resp.errWhisperFailed rc (pyTail 2000 stderr) (pyTail 2000 stdout)
        (String.intercalate " "
          (buildCmd candidate modelPath env.tmpPath env.outBase
            req.language req.task req.wordTs cfg.threads cfg.beamSize))
        (candidatesOf cfg.whisperBin) candidate
    else
      match env.jsonOut with
      | none => Resp.errMissingJson (pyTail 2000 stdout) (pyTail 2000 stderr)
      | some data =>
        Resp.success
          { language := data.language
            duration := data.duration
            text := pyStrip (data.text.getD "")
            segments := (data.segments.getD []).map (fun s =>
              { start := s.start, end_ := s.end_, text := pyStrip (s.text.getD "") })
            srt := env.srtOut
            word_timestamps := if req.wordTs then env.wtsOut else none
            used_bin := candidate }

/-- The transcribe endpoint: run the fallback loop, then build the
response from the final attempt. -/
def transcribe {α : Type} (cfg : Config) (modelPath : String) (req : TranscribeRequest)
    (env : TranscribeEnv α) : Resp α :=
  respond cfg modelPath req env
    (lastAttempt env.behavior cfg.whisperBin).1
    (lastAttempt env.behavior cfg.whisperBin).2

/-! ## Registered routes (lines 54 and 81) -/

/-- HTTP methods used by the application. -/
inductive HttpMethod where
  | get
  | post
deriving DecidableEq

/-- A registered route: method and path. -/
structure Route where
  method : HttpMethod
  path : String
deriving DecidableEq

/-- The routes the application registers with its decorators:
`@api.get("/healthz")` (line 54) and `@api.post("/transcribe")`
(line 81), in source order. -/
def apiRoutes : List Route :=
  [{ method := HttpMethod.get, path := "/healthz" },
   { method := HttpMethod.post, path := "/transcribe" }]

/-! ## Event trace of a transcribe request

An ordered record of the observable steps of one request, used to state
where on each control path the temporary input file is unlinked. -/

/-- Observable steps of one transcribe request, in order: writing the
upload to the temp file (with its chosen suffix), each `subprocess.run`
attempt of the fallback loop, the `os.unlink(tmp_path)` call of line 111,
and the construction of the `JSONResponse` (with its status code). -/
inductive Event where
  | saveUpload (suffix : String)
  | runBin (name : String)
  | unlinkInput
  | respond (status : Nat)
deriving DecidableEq

/-- The `subprocess.run` attempts the fallback loop makes, in order
(one per candidate tried before the loop breaks or is exhausted). -/
def loopEvents (behavior : String → RunResult) (c : String) :
    List String → List Event
  | [] => [Event.runBin c]
  | c2 :: rest =>
    if shouldContinue (behavior c) then Event.runBin c :: loopEvents behavior c2 rest
    else [Event.runBin c]

/-- The full event trace of one transcribe request, mirroring the
endpoint's control flow: save the upload, run the fallback loop, unlink
the input temp file (line 111, before any branch of lines 114–169), then
construct the response. -/
def transcribeTrace {α : Type} (cfg : Config) (modelPath : String)
    (req : TranscribeRequest) (env : TranscribeEnv α) : List Event :=
  Event.saveUpload (tmpSuffix req.filename) ::
    (loopEvents env.behavior cfg.whisperBin ["whisper-cli", "whisper"] ++
      Event.unlinkInput ::
        [Event.respond (statusCode (transcribe cfg modelPath req env))])

/-! ## Claim-side definitions

Definitions written from the claims' words, to be compared with the
definitions above that embed the source. -/

/-- The command line as claim C7 words it: the fixed arguments, then
`-l` with the language appended iff a language was supplied (i.e. iff the
optional form field is present), then `-tr` iff the task equals
`"translate"`, then `-owts` iff word timestamps were requested. -/
def buildCmdClaimed (binName modelPath tmpPath outBase : String) (language : Option String)
    (task : String) (wordTs : Bool) (threads beamSize : Int) : List String :=
  [binName, "-m", modelPath, "-f", tmpPath,
   "-oj", "-osrt", "-of", outBase,
   "-t", toString threads, "-bs", toString beamSize]
  ++ (match language with
      | none => []
      | some l => ["-l", l])
  ++ (if task = "translate" then ["-tr"] else [])
  ++ (if wordTs then ["-owts"] else [])

/-- Normalisation used by the amended claim C7: a supplied empty-string
language counts as no language (Python's `if language:` truthiness). -/
def normalizeLang (language : Option String) : Option String :=
  if language = some "" then none else language

/-! ## Concrete fixtures

Concrete configurations, requests and subprocess behaviours used to
evaluate the model in witnesses and counterexamples. -/

/-- A concrete configuration (the application's defaults). -/
def cfg0 : Config :=
  { modelsDir := "/models", modelArg := "base.en", threads := 4, beamSize := 5,
    whisperBin := "whisper-cli" }

/-- A concrete transcribe request. -/
def req0 : TranscribeRequest :=
  { filename := some "voice.mp3", language := none, task := "transcribe", wordTs := false }

/-- Every binary runs and exits 0. -/
def behaviorOk : String → RunResult := fun _ => RunResult.ran 0 "ok" ""

/-- Every binary runs, exits 1, and prints no deprecation notice. -/
def behaviorHardFail : String → RunResult := fun _ => RunResult.ran 1 "boom" ""

/-- Every binary runs, exits 1, and prints a deprecation notice. -/
def behaviorDeprecated : String → RunResult :=
  fun _ => RunResult.ran 1 "warning: main is Deprecated, use whisper-cli" ""

/-- A concrete parsed whisper JSON output. -/
def json0 : WhisperJson Nat :=
  { language := some 1, duration := some 2, text := some "  hello world ",
    segments := some [{ start := some 3, end_ := some 4, text := some " hi " }] }

/-- A concrete environment for a fully successful request. -/
def env0 : TranscribeEnv Nat :=
  { behavior := behaviorOk, tmpPath := "/tmp/in.mp3", outBase := "/tmp/work/out",
    jsonOut := some json0, srtOut := some "1 00:00:00 hi", wtsOut := some 9 }

/-- A concrete environment where the first binary fails hard. -/
def envFail : TranscribeEnv Nat :=
  { behavior := behaviorHardFail, tmpPath := "/tmp/in.wav", outBase := "/tmp/work/out",
    jsonOut := none, srtOut := none, wtsOut := none }

/-! ## Supporting lemmas -/

/-- Every weights-file name in the alias table is non-empty, so Python's
`if not fname:` fires exactly on a missing key. -/
lemma ggml_lookup_ne_empty {a f : String} (h : List.lookup a GGML_MAP = some f) :
    f ≠ "" := by
  simp only [GGML_MAP, List.lookup] at h
  repeat' split at h
  all_goals (first | (injection h with h2; subst h2; decide) | exact absurd h (by simp))

/-- The fallback loop's run events are one `runBin` per candidate tried. -/
lemma loopEvents_shape (behavior : String → RunResult) (c : String) (rest : List String) :
    ∃ runs : List String, runs ≠ [] ∧
      loopEvents behavior c rest = runs.map Event.runBin := by
  induction rest generalizing c with
  | nil => exact ⟨[c], by simp, rfl⟩
  | cons c2 rest ih =>
    by_cases h : shouldContinue (behavior c) = true
    · obtain ⟨runs, hne, hr⟩ := ih c2
      exact ⟨c :: runs, by simp, by simp [loopEvents, h, hr]⟩
    · exact ⟨[c], by simp, by simp [loopEvents, h]⟩

/-! ## Claims -/

/-- C1 (counterexample): the claim that the transcribe endpoint is the
only registered HTTP route is false: the application also registers the
`GET /healthz` health route, a route distinct from `/transcribe`. -/
theorem healthz_route_registered :
    Route.mk HttpMethod.get "/healthz" ∈ apiRoutes ∧
    Route.mk HttpMethod.get "/healthz" ≠ Route.mk HttpMethod.post "/transcribe" := by
  decide

/-- C1 (amended): the application registers exactly two HTTP routes —
the `POST /transcribe` endpoint that accepts the audio upload and the
`GET /healthz` health endpoint — and no route besides these two. -/
theorem api_routes_exactly_two :
    apiRoutes.length = 2 ∧
    Route.mk HttpMethod.post "/transcribe" ∈ apiRoutes ∧
    Route.mk HttpMethod.get "/healthz" ∈ apiRoutes ∧
    apiRoutes.all (fun r =>
      r == Route.mk HttpMethod.post "/transcribe" ||
      r == Route.mk HttpMethod.get "/healthz") = true := by
  decide

/-- C5: for a known model alias (a key of the alias table, which contains
no path separator), `resolve_model_path` returns the weights-file name
joined to the models directory; it downloads to that path exactly when no
file exists there, and when the file already exists it performs no
file-system change at all. -/
theorem resolve_known_alias_download_once (modelsDir modelArg fname : String)
    (fsExists : String → Bool)
    (hsep : containsSub "/".data modelArg.data = false)
    (hmap : List.lookup modelArg GGML_MAP = some fname) :
    (resolve_model_path modelsDir modelArg fsExists).1 =
      Except.ok (pathJoin modelsDir fname) ∧
    (fsExists (pathJoin modelsDir fname) = false →
      (resolve_model_path modelsDir modelArg fsExists).2 =
        [FsEvent.makedirs modelsDir,
         FsEvent.download (hfUrl fname) (pathJoin modelsDir fname)]) ∧
    (fsExists (pathJoin modelsDir fname) = true →
      (resolve_model_path modelsDir modelArg fsExists).2 = []) := by
  have hf : fname ≠ "" := ggml_lookup_ne_empty hmap
  refine ⟨?_, ?_, ?_⟩
  · simp [resolve_model_path, hsep, hmap, hf]
    split <;> rfl
  · intro hex
    simp [resolve_model_path, hsep, hmap, hf, hex]
  · intro hex
    simp [resolve_model_path, hsep, hmap, hf, hex]

/-- C5 (witness): resolving the default alias `"base.en"` on an empty
file system downloads once to `/models/ggml-base.en.bin`. -/
theorem resolve_known_alias_download_once_witness :
    (resolve_model_path "/models" "base.en" (fun _ => false)).1 =
      Except.ok (pathJoin "/models" "ggml-base.en.bin") ∧
    (resolve_model_path "/models" "base.en" (fun _ => false)).2 =
      [FsEvent.makedirs "/models",
       FsEvent.download (hfUrl "ggml-base.en.bin") (pathJoin "/models" "ggml-base.en.bin")] := by
  have h := resolve_known_alias_download_once "/models" "base.en" "ggml-base.en.bin"
    (fun _ => false) (by decide) (by decide)
  exact ⟨h.1, h.2.1 rfl⟩

/-- C6: a value without a path separator is looked up in the alias table:
a known alias maps to its weights-file name joined to the models
directory, an unknown one raises `ValueError` naming the alias; a value
containing a path separator is treated as a file path — `FileNotFoundError`
when no file exists there, the path itself otherwise. -/
theorem resolve_model_arg_cases (modelsDir modelArg : String) (fsExists : String → Bool) :
    (∀ fname, containsSub "/".data modelArg.data = false →
      List.lookup modelArg GGML_MAP = some fname →
      (resolve_model_path modelsDir modelArg fsExists).1 =
        Except.ok (pathJoin modelsDir fname)) ∧
    (containsSub "/".data modelArg.data = false →
      List.lookup modelArg GGML_MAP = none →
      (resolve_model_path modelsDir modelArg fsExists).1 =
        Except.error (ResolveErr.valueError ("Unknown model alias: " ++ modelArg))) ∧
    (containsSub "/".data modelArg.data = true → fsExists modelArg = false →
      (resolve_model_path modelsDir modelArg fsExists).1 =
        Except.error (ResolveErr.fileNotFound ("Model not found at " ++ modelArg))) ∧
    (containsSub "/".data modelArg.data = true → fsExists modelArg = true →
      (resolve_model_path modelsDir modelArg fsExists).1 = Except.ok modelArg) := by
  refine ⟨?_, ?_, ?_, ?_⟩
  · intro fname hsep hmap
    have hf : fname ≠ "" := ggml_lookup_ne_empty hmap
    simp [resolve_model_path, hsep, hmap, hf]
    split <;> rfl
  · intro hsep hmap
    simp [resolve_model_path, hsep, hmap]
  · intro hsep hex
    simp [resolve_model_path, hsep, hex]
  · intro hsep hex
    simp [resolve_model_path, hsep, hex]

/-- C6 (witness): a known alias, an unknown alias, and the two
separator-path cases, each at a concrete input. -/
theorem resolve_model_arg_cases_witness :
    (resolve_model_path "/models" "base.en" (fun _ => true)).1 =
      Except.ok (pathJoin "/models" "ggml-base.en.bin") ∧
    (resolve_model_path "/models" "bogus" (fun _ => true)).1 =
      Except.error (ResolveErr.valueError ("Unknown model alias: " ++ "bogus")) ∧
    (resolve_model_path "/models" "/weights/m.bin" (fun _ => false)).1 =
      Except.error (ResolveErr.fileNotFound ("Model not found at " ++ "/weights/m.bin")) ∧
    (resolve_model_path "/models" "/weights/m.bin" (fun _ => true)).1 =
      Except.ok "/weights/m.bin" :=
  ⟨(resolve_model_arg_cases "/models" "base.en" (fun _ => true)).1
      "ggml-base.en.bin" (by decide) (by decide),
   (resolve_model_arg_cases "/models" "bogus" (fun _ => true)).2.1 (by decide) (by decide),
   (resolve_model_arg_cases "/models" "/weights/m.bin" (fun _ => false)).2.2.1 (by decide) rfl,
   (resolve_model_arg_cases "/models" "/weights/m.bin" (fun _ => true)).2.2.2 (by decide) rfl⟩

/-- C7 (counterexample): the claim that `-l` is appended iff a language
was supplied fails on a supplied empty-string language (Python's
`if language:` is false on `""`): the command the code builds differs
from the claimed command there. -/
theorem buildCmd_empty_language_differs :
    buildCmd "whisper-cli" "/models/ggml-base.en.bin" "/tmp/in.wav" "/tmp/work/out"
        (some "") "transcribe" false 4 5 ≠
      buildCmdClaimed "whisper-cli" "/models/ggml-base.en.bin" "/tmp/in.wav" "/tmp/work/out"
        (some "") "transcribe" false 4 5 := by
  decide

/-- C7 (amended): the command is the binary name followed by `-m` model,
`-f` temp file, `-oj`, `-osrt`, `-of` prefix, `-t` threads, `-bs` beam
size; `-l` with the language is appended iff a *non-empty* language was
supplied, `-tr` iff the task equals `"translate"`, `-owts` iff word
timestamps were requested — i.e. the built command agrees with the
claimed one once an empty supplied language is treated as absent. -/
theorem buildCmd_eq_claimed_normalized (binName modelPath tmpPath outBase : String)
    (language : Option String) (task : String) (wordTs : Bool) (threads beamSize : Int) :
    buildCmd binName modelPath tmpPath outBase language task wordTs threads beamSize =
      buildCmdClaimed binName modelPath tmpPath outBase (normalizeLang language)
        task wordTs threads beamSize := by
  rcases language with _ | l
  · rfl
  · by_cases h : l = ""
    · subst h
      simp [buildCmd, buildCmdClaimed, normalizeLang]
    · simp [buildCmd, buildCmdClaimed, normalizeLang, h]

/-- C9: a missing filename or one without an extension gives the temp
file the suffix `".wav"`; otherwise the temp file keeps the upload's
extension — and the transcribe request's first observable step stores the
upload with exactly that suffix. -/
theorem upload_suffix {α : Type} (req : TranscribeRequest) (cfg : Config)
    (modelPath : String) (env : TranscribeEnv α) :
    (transcribeTrace cfg modelPath req env).head? =
      some (Event.saveUpload (tmpSuffix req.filename)) ∧
    ((req.filename = none ∨ splitextExt (req.filename.getD "") = "") →
      tmpSuffix req.filename = ".wav") ∧
    (∀ s, req.filename = some s → splitextExt s ≠ "" →
      tmpSuffix req.filename = splitextExt s) := by
  refine ⟨rfl, ?_, ?_⟩
  · rintro (h | h)
    · simp [tmpSuffix, h, splitextExt, lastIndexOf]
    · simp [tmpSuffix, h]
  · intro s hs hne
    simp [tmpSuffix, hs, hne]

/-- C9 (witness): the upload `voice.mp3` keeps its `.mp3` extension, and
a missing filename falls back to `.wav`. -/
theorem upload_suffix_witness :
    tmpSuffix (some "voice.mp3") = splitextExt "voice.mp3" ∧
    tmpSuffix none = ".wav" :=
  ⟨(upload_suffix req0 cfg0 "/models/ggml-base.en.bin" env0).2.2
      "voice.mp3" rfl (by decide),
   (upload_suffix { req0 with filename := none } cfg0 "/models/ggml-base.en.bin" env0).2.1
      (Or.inl rfl)⟩

/-- C2 (counterexample): the claim that the loop moves to the next
candidate whenever the current one does not succeed is false: with every
binary running but exiting 1 without a deprecation notice, the loop stops
at the very first candidate — its run did not succeed, yet only one
subprocess attempt is made. -/
theorem fallback_stops_on_hard_failure :
    lastAttempt behaviorHardFail "mybin" = ("mybin", RunResult.ran 1 "boom" "") ∧
    (1 : Int) ≠ 0 ∧
    loopEvents behaviorHardFail "mybin" ["whisper-cli", "whisper"] =
      [Event.runBin "mybin"] := by
  decide

/-- C2 (amended): the candidates are tried in sequence; the loop stops
exactly when the current candidate's subprocess ran and either exited
zero or exited non-zero without a deprecation notice in its combined
output, and moves to the next candidate exactly when the binary was not
found or it exited non-zero with a deprecation notice. -/
theorem fallback_step_iff (behavior : String → RunResult) (c c2 : String)
    (rest : List String) :
    (shouldContinue (behavior c) = true →
      loopLastNE behavior c (c2 :: rest) = loopLastNE behavior c2 rest) ∧
    (shouldContinue (behavior c) = false →
      loopLastNE behavior c (c2 :: rest) = (c, behavior c)) ∧
    (∀ rc stdout stderr,
      shouldContinue (RunResult.ran rc stdout stderr) = false ↔
        (rc = 0 ∨ hasDeprecated stdout stderr = false)) ∧
    shouldContinue RunResult.notFound = true := by
  refine ⟨?_, ?_, ?_, rfl⟩
  · intro h
    simp [loopLastNE, h]
  · intro h
    simp [loopLastNE, h]
  · intro rc stdout stderr
    simp [shouldContinue]
    tauto

/-- C2 (amended, witness): a deprecation-flagged non-zero exit moves the
loop on; a plain non-zero exit stops it. -/
theorem fallback_step_iff_witness :
    loopLastNE behaviorDeprecated "a" ["b"] = loopLastNE behaviorDeprecated "b" [] ∧
    loopLastNE behaviorHardFail "a" ["b"] = ("a", behaviorHardFail "a") :=
  ⟨(fallback_step_iff behaviorDeprecated "a" "b" []).1 (by decide),
   (fallback_step_iff behaviorHardFail "a" "b" []).2.1 (by decide)⟩

/-- C3: the transcribe endpoint returns HTTP 500 with an error field
exactly when the fallback loop ends in a binary-not-found error, or the
chosen subprocess exited non-zero, or the JSON output file is missing;
in every other case it returns HTTP 200 with the transcription. -/
theorem transcribe_status_iff {α : Type} (cfg : Config) (modelPath : String)
    (req : TranscribeRequest) (env : TranscribeEnv α) :
    ((statusCode (transcribe cfg modelPath req env) = 500 ∧
      hasErrorField (transcribe cfg modelPath req env) = true) ↔
      ((lastAttempt env.behavior cfg.whisperBin).2 = RunResult.notFound ∨
       (∃ rc stdout stderr,
         (lastAttempt env.behavior cfg.whisperBin).2 = RunResult.ran rc stdout stderr ∧
         rc ≠ 0) ∨
       env.jsonOut = none)) ∧
    (statusCode (transcribe cfg modelPath req env) = 500 ∨
     (statusCode (transcribe cfg modelPath req env) = 200 ∧
      isSuccess (transcribe cfg modelPath req env) = true)) := by
  unfold transcribe
  rcases h : (lastAttempt env.behavior cfg.whisperBin).2 with _ | ⟨rc, stdout, stderr⟩
  · simp [respond, statusCode, hasErrorField, h]
  · by_cases hrc : rc = 0
    · subst hrc
      rcases hj : env.jsonOut with _ | data
      · simp [respond, statusCode, hasErrorField, h, hj]
      · simp [respond, statusCode, hasErrorField, isSuccess, h, hj]
    · simp [respond, statusCode, hasErrorField, h, hrc]

/-- C4: on success the response carries the parsed JSON's language and
duration, the whitespace-stripped text, the timed segments each with
start, end and stripped text, the srt file's content when that file
exists and null otherwise, and the word-timestamp data only when word
timestamps were requested. -/
theorem transcribe_success_payload {α : Type} (cfg : Config) (modelPath : String)
    (req : TranscribeRequest) (env : TranscribeEnv α) (c : String)
    (stdout stderr : String) (data : WhisperJson α)
    (hlast : lastAttempt env.behavior cfg.whisperBin = (c, RunResult.ran 0 stdout stderr))
    (hjson : env.jsonOut = some data) :
    transcribe cfg modelPath req env = Resp.success
      { language := data.language
        duration := data.duration
        text := pyStrip (data.text.getD "")
        segments := (data.segments.getD []).map (fun s =>
          { start := s.start, end_ := s.end_, text := pyStrip (s.text.getD "") })
        srt := env.srtOut
        word_timestamps := if req.wordTs then env.wtsOut else none
        used_bin := c } := by
  simp [transcribe, hlast, respond, hjson]

/-- C4 (witness): the success payload at a fully concrete request. -/
theorem transcribe_success_payload_witness :
    transcribe cfg0 "/models/ggml-base.en.bin" req0 env0 = Resp.success
      { language := json0.language
        duration := json0.duration
        text := pyStrip (json0.text.getD "")
        segments := (json0.segments.getD []).map (fun s =>
          { start := s.start, end_ := s.end_, text := pyStrip (s.text.getD "") })
        srt := env0.srtOut
        word_timestamps := if req0.wordTs then env0.wtsOut else none
        used_bin := "whisper-cli" } :=
  transcribe_success_payload cfg0 "/models/ggml-base.en.bin" req0 env0
    "whisper-cli" "ok" "" json0 (by decide) rfl

/-- C8: a candidate that ran but exited non-zero is retried with the next
candidate exactly when `"deprecated"` occurs (case-insensitively) in its
combined stdout+stderr; without it, the loop stops there and the request
ends in the 500 response carrying that exit code. -/
theorem deprecated_gates_retry {α : Type} (cfg : Config) (modelPath : String)
    (req : TranscribeRequest) (env : TranscribeEnv α)
    (rc : Int) (stdout stderr : String) (hrc : rc ≠ 0) :
    (∀ (behavior : String → RunResult) (c c2 : String) (rest : List String),
      behavior c = RunResult.ran rc stdout stderr →
      hasDeprecated stdout stderr = true →
      loopLastNE behavior c (c2 :: rest) = loopLastNE behavior c2 rest) ∧
    (∀ (behavior : String → RunResult) (c c2 : String) (rest : List String),
      behavior c = RunResult.ran rc stdout stderr →
      hasDeprecated stdout stderr = false →
      loopLastNE behavior c (c2 :: rest) = (c, RunResult.ran rc stdout stderr)) ∧
    (env.behavior cfg.whisperBin = RunResult.ran rc stdout stderr →
      hasDeprecated stdout stderr = false →
      statusCode (transcribe cfg modelPath req env) = 500 ∧
      exitCodeOf (transcribe cfg modelPath req env) = some rc) := by
  refine ⟨?_, ?_, ?_⟩
  · intro behavior c c2 rest hbeh hdep
    simp [loopLastNE, hbeh, shouldContinue, hdep, hrc]
  · intro behavior c c2 rest hbeh hdep
    simp [loopLastNE, hbeh, shouldContinue, hdep]
  · intro hbeh hdep
    have hl : lastAttempt env.behavior cfg.whisperBin =
        (cfg.whisperBin, RunResult.ran rc stdout stderr) := by
      simp [lastAttempt, loopLastNE, hbeh, shouldContinue, hdep]
    have hb : (rc != 0) = true := by simp [hrc]
    simp [transcribe, hl, respond, statusCode, exitCodeOf, hb]

/-- C8 (witness): a plain exit-1 failure of the first candidate becomes
the request's 500 outcome with exit code 1. -/
theorem deprecated_gates_retry_witness :
    statusCode (transcribe cfg0 "/models/ggml-base.en.bin" req0 envFail) = 500 ∧
    exitCodeOf (transcribe cfg0 "/models/ggml-base.en.bin" req0 envFail) = some 1 :=
  (deprecated_gates_retry cfg0 "/models/ggml-base.en.bin" req0 envFail
    1 "boom" "" (by decide)).2.2 rfl (by decide)

/-- C10: on every path of the transcribe endpoint — not-found error,
non-zero-exit error, missing-JSON error, or success — the input temp file
is unlinked exactly once, after every subprocess attempt of the fallback
loop and before the response is constructed. -/
theorem unlink_after_loop_before_response {α : Type} (cfg : Config)
    (modelPath : String) (req : TranscribeRequest) (env : TranscribeEnv α) :
    ∃ runs : List String, runs ≠ [] ∧
      transcribeTrace cfg modelPath req env =
        Event.saveUpload (tmpSuffix req.filename) ::
          (runs.map Event.runBin ++
            [Event.unlinkInput,
             Event.respond (statusCode (transcribe cfg modelPath req env))]) ∧
      Event.unlinkInput ∉ runs.map Event.runBin := by
  obtain ⟨runs, hne, hr⟩ :=
    loopEvents_shape env.behavior cfg.whisperBin ["whisper-cli", "whisper"]
  exact ⟨runs, hne, by simp [transcribeTrace, hr], by simp⟩

end WhisperApp
